import Mathlib

/-!
# Verification of the secbank core-banking transaction posting engine

Shallow embedding of the posting engine of the `secbank_cbs` repository:
the tRPC routers (`transaction.deposit`, `transaction.withdraw`,
`transaction.internalTransfer`, `switch.instapaySend`, `switch.instapayCallback`),
the REST withdrawal endpoint (`POST /api/v1/transactions/withdrawal`), and the
database-layer functions `generateTransactionReference`, `createTransaction`,
`createInstapayTransaction` and `updateInstapayTransactionStatus`.

Monetary values are `decimal(18,2)` columns in the source schema; the embedding
represents them exactly as integer centavos (`Int`).  Database tables become
lists: the `accounts` table, the append-only `transactions` ledger, the
`instapay_transactions` table, and the per-date `transaction_sequence` counter
row (a single `Option Nat`, since every modelled run stays within one date).
Drizzle's `select().where(eq ...)` taking the first row becomes `List.find?`;
an `update().where(eq ...)` becomes a `List.map` that rewrites matching rows.
-/

namespace SecBank

/-- Account status enum from `drizzle/schema.ts` (`active` / `closed`). -/
inductive AccountStatus where
  | active
  | closed
deriving DecidableEq, Repr

/-- A row of the `accounts` table (the fields the posting engine touches).
`balance` is in centavos. -/
structure Account where
  id : Nat
  accountNumber : String
  balance : Int
  status : AccountStatus
deriving DecidableEq, Repr

/-- Ledger entry type enum from `drizzle/schema.ts`. -/
inductive TxType where
  | DEPOSIT
  | WITHDRAWAL
  | INTERNAL_TRANSFER
  | INSTAPAY
deriving DecidableEq, Repr

/-- A row of the append-only `transactions` ledger table.  `amount` is the
signed posted delta and `balanceAfter` the resulting balance snapshot, both in
centavos. -/
structure LedgerEntry where
  referenceNumber : String
  accountId : Nat
  type : TxType
  amount : Int
  balanceAfter : Int
  relatedAccountId : Option Nat
  relatedAccountNumber : Option String
  description : String
deriving DecidableEq, Repr

/-- Instapay transfer status enum from `drizzle/schema.ts`. -/
inductive IStatus where
  | PENDING
  | SUCCESS
  | FAILED
deriving DecidableEq, Repr

/-- A row of the `instapay_transactions` table. -/
structure InstapayTx where
  referenceNumber : String
  sourceAccountId : Nat
  sourceAccountNumber : String
  bankName : String
  bankCode : String
  accountNumber : String
  accountName : String
  amount : Int
  status : IStatus
  switchReferenceNumber : Option String
  statusMessage : Option String
deriving DecidableEq, Repr

/-- The persistent state the posting engine reads and writes: the `accounts`
table, the `transactions` ledger (in append order), the
`instapay_transactions` table, today's date string (`YYYYMMDD`) and the
`transaction_sequence` counter row for that date (`none` = row absent). -/
structure BankState where
  accounts : List Account
  ledger : List LedgerEntry
  instapay : List InstapayTx
  dateStr : String
  lastSequence : Option Nat
deriving DecidableEq, Repr

/-! ## Reference number generation (`generateTransactionReference`)

The source renders the next sequence number with JavaScript
`sequence.toString().padStart(6, '0')` and returns
`` `TXN${dateStr}${...}` ``.  `decChars` is the standard decimal rendering
(most significant digit first), written with a structural fuel argument so
that it is kernel-reducible. -/

/-- The character for a decimal digit `d < 10` (JavaScript digit rendering). -/
def digitChar (d : Nat) : Char := Char.ofNat (48 + d)

/-- Decimal digits of `n`, most significant first; `fuel ≥ n` makes it total.
Mirrors JavaScript `Number.prototype.toString()` for natural numbers. -/
def decChars : Nat → Nat → List Char
  | _, 0 => []
  | 0, _ + 1 => []
  | fuel + 1, n + 1 => decChars fuel ((n + 1) / 10) ++ [digitChar ((n + 1) % 10)]

/-- JavaScript `n.toString()` for a natural number. -/
def decimalString (n : Nat) : String :=
  if n = 0 then String.mk ['0'] else String.mk (decChars n n)

/-- JavaScript `n.toString().padStart(6, '0')`. -/
def padSeq (n : Nat) : String :=
  let s := decimalString n
  if 6 ≤ s.length then s else String.mk (List.replicate (6 - s.length) '0') ++ s

/-- The reference number string `TXN` + date + padded sequence. -/
def mkRef (dateStr : String) (seq : Nat) : String :=
  "TXN" ++ dateStr ++ padSeq seq

/-- The sequence number issued next: `lastSequence + 1` if the counter row
exists, else `1` (the row is inserted with sequence 1). -/
def nextSeq : Option Nat → Nat
  | none => 1
  | some n => n + 1

/-- `generateTransactionReference` from the db layer: read the counter row for
today, increment (or insert with 1), and return `TXN` + date + padded
sequence together with the updated state. -/
def generateTransactionReference (st : BankState) : String × BankState :=
  let seq := nextSeq st.lastSequence
  (mkRef st.dateStr seq, { st with lastSequence := some seq })

/-! ### Arithmetic facts about the decimal rendering -/

/-- Value of a digit-character list read back as a decimal numeral
(leading zeros do not change the value). -/
def valOfChars (l : List Char) : Nat :=
  l.foldl (fun acc c => acc * 10 + (c.toNat - 48)) 0

theorem digitChar_toNat {d : Nat} (hd : d < 10) : (digitChar d).toNat = 48 + d := by
  interval_cases d <;> decide

theorem digitChar_isDigit {d : Nat} (hd : d < 10) : (digitChar d).isDigit = true := by
  interval_cases d <;> decide

/-- Folding the numeral step over rendered digits recovers the value. -/
theorem foldl_decChars (fuel : Nat) : ∀ n acc, n ≤ fuel →
    List.foldl (fun acc c => acc * 10 + (c.toNat - 48)) acc (decChars fuel n)
      = acc * 10 ^ (decChars fuel n).length + n := by
  induction fuel with
  | zero =>
    intro n acc hn
    interval_cases n
    simp [decChars]
  | succ fuel ih =>
    intro n acc hn
    match n with
    | 0 => simp [decChars]
    | n + 1 =>
      have hdiv : (n + 1) / 10 ≤ fuel := by
        have h1 : (n + 1) / 10 < n + 1 := Nat.div_lt_self (Nat.succ_pos n) (by norm_num)
        omega
      rw [decChars, List.foldl_append, ih _ _ hdiv]
      simp only [List.foldl_cons, List.foldl_nil, List.length_append, List.length_cons,
        List.length_nil]
      rw [digitChar_toNat (Nat.mod_lt _ (by norm_num))]
      have hmod : 48 + (n + 1) % 10 - 48 = (n + 1) % 10 := by omega
      rw [hmod]
      have : (acc * 10 ^ (decChars fuel ((n + 1) / 10)).length + (n + 1) / 10) * 10
          = acc * 10 ^ ((decChars fuel ((n + 1) / 10)).length + 1) + (n + 1) / 10 * 10 := by
        ring
      rw [this, Nat.add_assoc]
      congr 1
      omega

/-- Reading back the decimal string of `n` yields `n`. -/
theorem valOfChars_decimalString (n : Nat) : valOfChars (decimalString n).data = n := by
  by_cases h : n = 0
  · subst h; decide
  · unfold decimalString valOfChars
    rw [if_neg h]
    show List.foldl _ 0 (decChars n n) = n
    rw [foldl_decChars n n 0 le_rfl]
    simp

/-- Leading zeros contribute nothing to the read-back value. -/
theorem foldl_replicate_zero (k : Nat) :
    List.foldl (fun acc c => acc * 10 + (c.toNat - 48)) 0 (List.replicate k '0') = 0 := by
  induction k with
  | zero => rfl
  | succ k ih =>
    rw [List.replicate_succ, List.foldl_cons]
    simpa using ih

/-- Reading back the zero-padded sequence string of `n` yields `n`. -/
theorem valOfChars_padSeq (n : Nat) : valOfChars (padSeq n).data = n := by
  unfold padSeq
  by_cases h6 : 6 ≤ (decimalString n).length
  · simpa [h6] using valOfChars_decimalString n
  · simp only [h6, if_false]
    show valOfChars ((String.mk (List.replicate (6 - (decimalString n).length) '0')
      ++ decimalString n).data) = n
    have hdata : (String.mk (List.replicate (6 - (decimalString n).length) '0')
        ++ decimalString n).data
        = List.replicate (6 - (decimalString n).length) '0' ++ (decimalString n).data := rfl
    rw [hdata]
    unfold valOfChars
    rw [List.foldl_append, foldl_replicate_zero]
    exact valOfChars_decimalString n

/-- The zero-padded sequence rendering is injective. -/
theorem padSeq_injective : Function.Injective padSeq := by
  intro a b hab
  have := valOfChars_padSeq a
  rw [hab, valOfChars_padSeq] at this
  omega

/-- Reference numbers for distinct sequence values on the same date differ. -/
theorem mkRef_injective (d : String) {a b : Nat} (hab : mkRef d a = mkRef d b) : a = b := by
  unfold mkRef at hab
  have hdata : ("TXN" ++ d).data ++ (padSeq a).data = ("TXN" ++ d).data ++ (padSeq b).data := by
    have h1 : ("TXN" ++ d ++ padSeq a).data = ("TXN" ++ d ++ padSeq b).data := by rw [hab]
    simpa [String.data_append] using h1
  have : (padSeq a).data = (padSeq b).data := by
    exact List.append_cancel_left hdata
  exact padSeq_injective (String.ext this)

/-- Every character the decimal rendering emits is a digit character. -/
theorem decChars_shape (fuel : Nat) : ∀ n, ∀ c ∈ decChars fuel n,
    ∃ d, d < 10 ∧ c = digitChar d := by
  induction fuel with
  | zero =>
    intro n c hc
    match n with
    | 0 => simp [decChars] at hc
    | n + 1 => simp [decChars] at hc
  | succ fuel ih =>
    intro n c hc
    match n with
    | 0 => simp [decChars] at hc
    | n + 1 =>
      rw [decChars] at hc
      rcases List.mem_append.mp hc with h | h
      · exact ih _ c h
      · rcases List.mem_singleton.mp h with rfl
        exact ⟨(n + 1) % 10, Nat.mod_lt _ (by norm_num), rfl⟩

/-- Every character of a padded sequence string is a digit character. -/
theorem padSeq_shape (n : Nat) : ∀ c ∈ (padSeq n).data, ∃ d, d < 10 ∧ c = digitChar d := by
  intro c hc
  have hzero : ('0' : Char) = digitChar 0 := by decide
  unfold padSeq at hc
  by_cases h6 : 6 ≤ (decimalString n).length
  · rw [if_pos h6] at hc
    unfold decimalString at hc
    by_cases h0 : n = 0
    · rw [if_pos h0] at hc
      rcases List.mem_singleton.mp hc with rfl
      exact ⟨0, by norm_num, hzero⟩
    · rw [if_neg h0] at hc
      exact decChars_shape n n c hc
  · rw [if_neg h6] at hc
    have hdata : (String.mk (List.replicate (6 - (decimalString n).length) '0')
        ++ decimalString n).data
        = List.replicate (6 - (decimalString n).length) '0' ++ (decimalString n).data := rfl
    rw [hdata] at hc
    rcases List.mem_append.mp hc with h | h
    · rcases List.eq_of_mem_replicate h with rfl
      exact ⟨0, by norm_num, hzero⟩
    · unfold decimalString at h
      by_cases h0 : n = 0
      · rw [if_pos h0] at h
        rcases List.mem_singleton.mp h with rfl
        exact ⟨0, by norm_num, hzero⟩
      · rw [if_neg h0] at h
        exact decChars_shape n n c h

/-- Every character of a padded sequence string is an ASCII digit. -/
theorem padSeq_isDigit (n : Nat) : ∀ c ∈ (padSeq n).data, c.isDigit = true := by
  intro c hc
  rcases padSeq_shape n c hc with ⟨d, hd, rfl⟩
  exact digitChar_isDigit hd

/-- The rendering of `n` has at most `e` digits when `n < 10 ^ e`. -/
theorem decChars_length_le (fuel : Nat) : ∀ n e, n ≤ fuel → n < 10 ^ e →
    (decChars fuel n).length ≤ e := by
  induction fuel with
  | zero =>
    intro n e hn _
    interval_cases n
    simp [decChars]
  | succ fuel ih =>
    intro n e hn he
    match n with
    | 0 => simp [decChars]
    | n + 1 =>
      match e with
      | 0 => omega
      | e + 1 =>
        rw [decChars]
        simp only [List.length_append, List.length_cons, List.length_nil]
        have hdiv : (n + 1) / 10 ≤ fuel := by
          have h1 : (n + 1) / 10 < n + 1 := Nat.div_lt_self (Nat.succ_pos n) (by norm_num)
          omega
        have hlt : (n + 1) / 10 < 10 ^ e := by
          rw [Nat.div_lt_iff_lt_mul (by norm_num)]
          calc n + 1 < 10 ^ (e + 1) := he
          _ = 10 ^ e * 10 := by ring
        have := ih ((n + 1) / 10) e hdiv hlt
        omega

/-- A nonzero value renders to at least one digit. -/
theorem decChars_ne_nil (fuel n : Nat) (hn : 0 < n) (hfuel : n ≤ fuel) :
    decChars fuel n ≠ [] := by
  intro h
  have := foldl_decChars fuel n 0 hfuel
  rw [h] at this
  simp at this
  omega

/-- Any digit-character string reads back to a value below `10 ^ length`. -/
theorem valOfChars_lt (l : List Char) (hd : ∀ c ∈ l, c.toNat - 48 ≤ 9) :
    valOfChars l < 10 ^ l.length := by
  unfold valOfChars
  have gen : ∀ (l : List Char) (acc : Nat), (∀ c ∈ l, c.toNat - 48 ≤ 9) →
      List.foldl (fun acc c => acc * 10 + (c.toNat - 48)) acc l
        < (acc + 1) * 10 ^ l.length := by
    intro l
    induction l with
    | nil => intro acc _; simp
    | cons c l ihl =>
      intro acc hall
      rw [List.foldl_cons]
      have hc9 : c.toNat - 48 ≤ 9 := hall c (List.mem_cons_self c l)
      have := ihl (acc * 10 + (c.toNat - 48)) (fun x hx => hall x (List.mem_cons_of_mem c hx))
      calc List.foldl (fun acc c => acc * 10 + (c.toNat - 48)) (acc * 10 + (c.toNat - 48)) l
          < (acc * 10 + (c.toNat - 48) + 1) * 10 ^ l.length := this
      _ ≤ (acc + 1) * 10 ^ (c :: l).length := by
          simp only [List.length_cons, pow_succ]
          have h1 : acc * 10 + (c.toNat - 48) + 1 ≤ (acc + 1) * 10 := by omega
          calc (acc * 10 + (c.toNat - 48) + 1) * 10 ^ l.length
              ≤ (acc + 1) * 10 * 10 ^ l.length := Nat.mul_le_mul_right _ h1
          _ = (acc + 1) * (10 ^ l.length * 10) := by ring
  simpa using gen l 0 hd

/-- For sequence values between 1 and 999999 the padded rendering is exactly
six characters. -/
theorem padSeq_length_eq_six {n : Nat} (h : n ≤ 999999) : (padSeq n).data.length = 6 := by
  have hlen6 : (decimalString n).length ≤ 6 := by
    unfold decimalString
    by_cases h0 : n = 0
    · rw [if_pos h0]; decide
    · rw [if_neg h0]
      show (decChars n n).length ≤ 6
      exact decChars_length_le n n 6 le_rfl (by omega)
  unfold padSeq
  by_cases h6 : 6 ≤ (decimalString n).length
  · rw [if_pos h6]
    have heq : (decimalString n).length = 6 := le_antisymm hlen6 h6
    have hdl : (decimalString n).length = (decimalString n).data.length := rfl
    omega
  · rw [if_neg h6]
    show (String.mk (List.replicate (6 - (decimalString n).length) '0')
      ++ decimalString n).data.length = 6
    have hdata : (String.mk (List.replicate (6 - (decimalString n).length) '0')
        ++ decimalString n).data
        = List.replicate (6 - (decimalString n).length) '0' ++ (decimalString n).data := rfl
    rw [hdata, List.length_append, List.length_replicate]
    have : (decimalString n).length = (decimalString n).data.length := rfl
    omega

/-- For sequence values of one million or more the padded rendering is longer
than six characters. -/
theorem padSeq_length_of_big {n : Nat} (h : 1000000 ≤ n) : 7 ≤ (padSeq n).data.length := by
  by_contra hcon
  push_neg at hcon
  have hval := valOfChars_padSeq n
  have hdig : ∀ c ∈ (padSeq n).data, c.toNat - 48 ≤ 9 := by
    intro c hc
    rcases padSeq_shape n c hc with ⟨d, hd, rfl⟩
    rw [digitChar_toNat hd]
    omega
  have := valOfChars_lt (padSeq n).data hdig
  have hle : (10 : Nat) ^ (padSeq n).data.length ≤ 10 ^ 6 :=
    Nat.pow_le_pow_right (by norm_num) (by omega)
  rw [hval] at this
  have : n < 10 ^ 6 := lt_of_lt_of_le this hle
  norm_num at this
  omega

/-! ## Table access helpers

Drizzle's `select().where(eq(col, v))` destructured as `[row]` takes the first
matching row; `update().where(eq(col, v))` rewrites every matching row. -/

/-- `getAccountById`: first row of `accounts` with the given id. -/
def findAccountById (l : List Account) (id : Nat) : Option Account :=
  l.find? (fun a => a.id == id)

/-- `getAccountByNumber`: first row of `accounts` with the given number. -/
def findAccountByNumber (l : List Account) (num : String) : Option Account :=
  l.find? (fun a => a.accountNumber == num)

/-- `updateAccountBalance`: overwrite the balance of every row with the id. -/
def setBalance (l : List Account) (id : Nat) (b : Int) : List Account :=
  l.map (fun a => if a.id == id then { a with balance := b } else a)

/-- `getInstapayTransactionByReference`: first row with the reference. -/
def lookupInstapay (l : List InstapayTx) (ref : String) : Option InstapayTx :=
  l.find? (fun t => t.referenceNumber == ref)

/-- The `set` clause of `updateInstapayTransactionStatus`: overwrite status and,
JavaScript `||`-style, keep the old switch reference / message when the
callback carries none. -/
def applyStatusUpdate (status : IStatus) (swr msg : Option String) (t : InstapayTx) :
    InstapayTx :=
  { t with
    status := status
    switchReferenceNumber := swr.orElse (fun _ => t.switchReferenceNumber)
    statusMessage := msg.orElse (fun _ => t.statusMessage) }

/-- `update instapay_transactions ... where referenceNumber = ref`. -/
def updateInstapayRecords (l : List InstapayTx) (ref : String) (status : IStatus)
    (swr msg : Option String) : List InstapayTx :=
  l.map (fun t => if t.referenceNumber == ref then applyStatusUpdate status swr msg t else t)

/-- Generic fact: a row-wise update that never changes the value of the
search predicate commutes with `find?`. -/
theorem find?_map_of_pred_comm {α : Type} (g : α → α) (q : α → Bool)
    (hg : ∀ a, q (g a) = q a) : ∀ l : List α, (l.map g).find? q = (l.find? q).map g := by
  intro l
  induction l with
  | nil => rfl
  | cons a l ih =>
    by_cases ha : q a = true
    · rw [List.map_cons, List.find?_cons_of_pos _ ((hg a).trans ha),
        List.find?_cons_of_pos _ ha, Option.map_some']
    · have ha' : q a = false := by revert ha; cases q a <;> simp
      rw [List.map_cons, List.find?_cons_of_neg _ (by rw [hg a, ha']; simp),
        List.find?_cons_of_neg _ (by rw [ha']; simp), ih]

/-- `find?` over an appended list searches the first list first. -/
theorem find?_append {α : Type} (q : α → Bool) (l₁ l₂ : List α) (h : l₁.find? q = none) :
    (l₁ ++ l₂).find? q = l₂.find? q := by
  induction l₁ with
  | nil => rfl
  | cons a l ih =>
    rw [List.find?_cons] at h
    rcases hqa : q a with _ | _
    · rw [List.cons_append, List.find?_cons_of_neg _ (by rw [hqa]; simp)]
      exact ih (by rwa [hqa] at h; )
    · rw [hqa] at h; simp at h

/-- Looking up an account after `setBalance` on the same id returns the first
match with the balance overwritten. -/
theorem findAccountById_setBalance (l : List Account) (id : Nat) (b : Int) :
    findAccountById (setBalance l id b) id
      = (findAccountById l id).map (fun a => { a with balance := b }) := by
  unfold findAccountById setBalance
  have comm := find?_map_of_pred_comm
    (fun a : Account => if a.id == id then { a with balance := b } else a)
    (fun a : Account => a.id == id) (fun a => by by_cases h : a.id == id <;> simp [h]) l
  rw [comm]
  rcases hf : l.find? (fun a => a.id == id) with _ | a
  · rw [hf]; rfl
  · rw [hf]
    simp only [Option.map_some']
    rw [if_pos (List.find?_some hf)]

/-- `setBalance` for a different id does not affect an id lookup. -/
theorem findAccountById_setBalance_ne (l : List Account) (id id' : Nat) (b : Int)
    (h : id ≠ id') :
    findAccountById (setBalance l id' b) id = findAccountById l id := by
  unfold findAccountById setBalance
  have comm := find?_map_of_pred_comm
    (fun a : Account => if a.id == id' then { a with balance := b } else a)
    (fun a : Account => a.id == id) (fun a => by by_cases hh : a.id == id' <;> simp [hh]) l
  rw [comm]
  rcases hf : l.find? (fun a => a.id == id) with _ | a
  · rw [hf]; rfl
  · rw [hf]
    have haid : a.id = id := by simpa using List.find?_some hf
    simp only [Option.map_some']
    rw [if_neg (by simp [haid]; omega)]

/-- `setBalance` does not affect a lookup by account number, except for
overwriting the balance of the found row when its id matches. -/
theorem findAccountByNumber_setBalance (l : List Account) (num : String) (id : Nat) (b : Int) :
    findAccountByNumber (setBalance l id b) num
      = (findAccountByNumber l num).map
          (fun a => if a.id == id then { a with balance := b } else a) := by
  unfold findAccountByNumber setBalance
  exact find?_map_of_pred_comm _ (fun a : Account => a.accountNumber == num)
    (fun a => by by_cases h : a.id == id <;> simp [h]) l

/-- Looking up an instapay record after the status update returns the first
match with the update applied. -/
theorem lookupInstapay_update (l : List InstapayTx) (ref : String) (status : IStatus)
    (swr msg : Option String) :
    lookupInstapay (updateInstapayRecords l ref status swr msg) ref
      = (lookupInstapay l ref).map (applyStatusUpdate status swr msg) := by
  unfold lookupInstapay updateInstapayRecords
  have comm := find?_map_of_pred_comm
    (fun t : InstapayTx => if t.referenceNumber == ref then applyStatusUpdate status swr msg t
      else t)
    (fun t : InstapayTx => t.referenceNumber == ref)
    (fun t => by by_cases h : t.referenceNumber == ref <;> simp [h, applyStatusUpdate]) l
  rw [comm]
  rcases hf : l.find? (fun t => t.referenceNumber == ref) with _ | t
  · rw [hf]; rfl
  · rw [hf]
    simp only [Option.map_some']
    rw [if_pos (List.find?_some hf)]

/-! ## The posting operations

Each operation returns the post-state together with an `Except` result.  The
source has no enclosing database transaction: every `await db.*` write commits
on its own, so on a thrown error the writes already performed persist in the
returned state — the embedding keeps that behaviour. -/

/-- Decidable equality for `Except` results (not provided by the core
library), used to evaluate operation results on concrete inputs. -/
instance {ε α : Type} [DecidableEq ε] [DecidableEq α] : DecidableEq (Except ε α) :=
  fun x y =>
    match x, y with
    | .ok a, .ok b =>
      match decEq a b with
      | isTrue h => isTrue (congrArg Except.ok h)
      | isFalse h => isFalse (fun hh => h (Except.ok.inj hh))
    | .error e, .error f =>
      match decEq e f with
      | isTrue h => isTrue (congrArg Except.error h)
      | isFalse h => isFalse (fun hh => h (Except.error.inj hh))
    | .ok _, .error _ => isFalse (fun hh => Except.noConfusion hh)
    | .error _, .ok _ => isFalse (fun hh => Except.noConfusion hh)

/-- tRPC error codes used by the routers. -/
inductive TrpcCode where
  | NOT_FOUND
  | BAD_REQUEST
  | INTERNAL_SERVER_ERROR
  | VALIDATION_ERROR
deriving DecidableEq, Repr

/-- A `TRPCError` as thrown by `routers.ts`. -/
structure TrpcError where
  code : TrpcCode
  message : String
deriving DecidableEq, Repr

/-- Error payloads of the REST endpoints in the server REST api.  The
insufficient-balance message interpolates the current balance
(`Insufficient balance. Available: ...`), carried here as the constructor
argument. -/
inductive RestError where
  | validationError
  | notFound
  | accountClosed
  | insufficientBalance (available : Int)
  | internalError
deriving DecidableEq, Repr

/-- `createTransaction` from the db layer: allocate a reference number, then
insert one ledger row and return it. -/
def createTransaction (st : BankState) (accountId : Nat) (type : TxType)
    (amount balanceAfter : Int) (relatedAccountId : Option Nat)
    (relatedAccountNumber : Option String) (description : String) :
    BankState × LedgerEntry :=
  let (referenceNumber, st1) := generateTransactionReference st
  let entry : LedgerEntry :=
    { referenceNumber := referenceNumber
      accountId := accountId
      type := type
      amount := amount
      balanceAfter := balanceAfter
      relatedAccountId := relatedAccountId
      relatedAccountNumber := relatedAccountNumber
      description := description }
  ({ st1 with ledger := st1.ledger ++ [entry] }, entry)

/-- `transaction.deposit` from `routers.ts`: zod validates `amount > 0`, the
account is looked up, its balance overwritten with `balance + amount`, and one
DEPOSIT ledger row is written. -/
def transactionDeposit (st : BankState) (accountId : Nat) (amount : Int)
    (description : Option String) : BankState × Except TrpcError LedgerEntry :=
  if amount ≤ 0 then
    (st, .error ⟨.VALIDATION_ERROR, "Amount must be positive"⟩)
  else
    match findAccountById st.accounts accountId with
    | none => (st, .error ⟨.NOT_FOUND, "Account not found"⟩)
    | some account =>
      let newBalance := account.balance + amount
      let st1 := { st with accounts := setBalance st.accounts accountId newBalance }
      let (st2, tx) := createTransaction st1 accountId .DEPOSIT amount newBalance
        none none (description.getD "Manual Deposit")
      (st2, .ok tx)

/-- `transaction.withdraw` from `routers.ts`: zod validates `amount > 0`, the
account is looked up, a withdrawal above the balance is rejected, otherwise
the balance is overwritten with `balance - amount` and one WITHDRAWAL ledger
row (negative amount) is written.  Note: no closed-account check. -/
def transactionWithdraw (st : BankState) (accountId : Nat) (amount : Int)
    (description : Option String) : BankState × Except TrpcError LedgerEntry :=
  if amount ≤ 0 then
    (st, .error ⟨.VALIDATION_ERROR, "Amount must be positive"⟩)
  else
    match findAccountById st.accounts accountId with
    | none => (st, .error ⟨.NOT_FOUND, "Account not found"⟩)
    | some account =>
      if account.balance < amount then
        (st, .error ⟨.BAD_REQUEST, "Insufficient balance"⟩)
      else
        let newBalance := account.balance - amount
        let st1 := { st with accounts := setBalance st.accounts accountId newBalance }
        let (st2, tx) := createTransaction st1 accountId .WITHDRAWAL (-amount) newBalance
          none none (description.getD "Manual Withdrawal")
        (st2, .ok tx)

/-- `transaction.internalTransfer` from `routers.ts`: zod validates the
ten-character destination number and `amount > 0`; both accounts are looked up
(source by id, destination by number), the same-account and
insufficient-balance cases are rejected; then both balances are overwritten
and two INTERNAL_TRANSFER ledger rows are written, each with its own freshly
generated reference number.  The sender-side row is returned. -/
def internalTransfer (st : BankState) (fromAccountId : Nat) (toAccountNumber : String)
    (amount : Int) (description : Option String) :
    BankState × Except TrpcError LedgerEntry :=
  if toAccountNumber.length ≠ 10 then
    (st, .error ⟨.VALIDATION_ERROR, "Invalid account number"⟩)
  else if amount ≤ 0 then
    (st, .error ⟨.VALIDATION_ERROR, "Amount must be positive"⟩)
  else
    match findAccountById st.accounts fromAccountId with
    | none => (st, .error ⟨.NOT_FOUND, "Source account not found"⟩)
    | some fromAccount =>
      match findAccountByNumber st.accounts toAccountNumber with
      | none => (st, .error ⟨.NOT_FOUND, "Destination account not found"⟩)
      | some toAccount =>
        if fromAccount.id = toAccount.id then
          (st, .error ⟨.BAD_REQUEST, "Cannot transfer to the same account"⟩)
        else if fromAccount.balance < amount then
          (st, .error ⟨.BAD_REQUEST, "Insufficient balance"⟩)
        else
          let newFromBalance := fromAccount.balance - amount
          let newToBalance := toAccount.balance + amount
          let st1 := { st with accounts := setBalance st.accounts fromAccount.id newFromBalance }
          let st2 := { st1 with accounts := setBalance st1.accounts toAccount.id newToBalance }
          let (st3, senderTx) := createTransaction st2 fromAccount.id .INTERNAL_TRANSFER
            (-amount) newFromBalance (some toAccount.id) (some toAccount.accountNumber)
            (description.getD ("Transfer to " ++ toAccount.accountNumber))
          let (st4, _) := createTransaction st3 toAccount.id .INTERNAL_TRANSFER
            amount newToBalance (some fromAccount.id) (some fromAccount.accountNumber)
            (description.getD ("Transfer from " ++ fromAccount.accountNumber))
          (st4, .ok senderTx)

/-- `POST /api/v1/transactions/withdrawal` from the REST api: validates a
positive amount, looks the account up by number, rejects closed accounts and
withdrawals above the balance (reporting the available balance), then
overwrites the balance and writes one WITHDRAWAL ledger row. -/
def restWithdrawal (st : BankState) (accountNumber : String) (amount : Int)
    (description : Option String) : BankState × Except RestError LedgerEntry :=
  if amount ≤ 0 then
    (st, .error .validationError)
  else
    match findAccountByNumber st.accounts accountNumber with
    | none => (st, .error .notFound)
    | some account =>
      if account.status = .closed then
        (st, .error .accountClosed)
      else if account.balance < amount then
        (st, .error (.insufficientBalance account.balance))
      else
        let newBalance := account.balance - amount
        let st1 := { st with accounts := setBalance st.accounts account.id newBalance }
        let (st2, tx) := createTransaction st1 account.id .WITHDRAWAL (-amount) newBalance
          none none (description.getD "Withdrawal via API")
        (st2, .ok tx)

/-- Input of `createInstapayTransaction`. -/
structure InstapayInput where
  sourceAccountId : Nat
  sourceAccountNumber : String
  bankName : String
  bankCode : String
  accountNumber : String
  accountName : String
  amount : Int
deriving DecidableEq, Repr

/-- `createInstapayTransaction` from the db layer (reached through
`switch.instapaySend`): generate a reference number FIRST (the counter is
bumped even if a later check fails), then verify the source account exists and
is active, the amount is positive, within the 50,000.00 ceiling
(5000000 centavos) and covered by the balance; then deduct the amount, write
one INSTAPAY ledger row and insert a PENDING instapay record.  Thrown
`Error`s are modelled as `Except.error` with the thrown message. -/
def createInstapayTransaction (st : BankState) (input : InstapayInput) :
    BankState × Except String InstapayTx :=
  let (referenceNumber, st1) := generateTransactionReference st
  match findAccountById st1.accounts input.sourceAccountId with
  | none => (st1, .error "Source account not found")
  | some sourceAccount =>
    if sourceAccount.status ≠ .active then
      (st1, .error "Source account is not active")
    else if input.amount ≤ 0 then
      (st1, .error "Transfer amount must be greater than 0")
    else if input.amount > 5000000 then
      (st1, .error "Instapay transfers are limited to 50,000 per transaction")
    else if sourceAccount.balance < input.amount then
      (st1, .error "Insufficient balance")
    else
      let newBalance := sourceAccount.balance - input.amount
      let st2 := { st1 with accounts := setBalance st1.accounts input.sourceAccountId newBalance }
      let entry : LedgerEntry :=
        { referenceNumber := referenceNumber
          accountId := input.sourceAccountId
          type := .INSTAPAY
          amount := -input.amount
          balanceAfter := newBalance
          relatedAccountId := none
          relatedAccountNumber := some input.accountNumber
          description := "Instapay to " ++ input.accountName ++ " at " ++ input.bankName }
      let st3 := { st2 with ledger := st2.ledger ++ [entry] }
      let instapayTx : InstapayTx :=
        { referenceNumber := referenceNumber
          sourceAccountId := input.sourceAccountId
          sourceAccountNumber := input.sourceAccountNumber
          bankName := input.bankName
          bankCode := input.bankCode
          accountNumber := input.accountNumber
          accountName := input.accountName
          amount := input.amount
          status := .PENDING
          switchReferenceNumber := none
          statusMessage := none }
      let st4 := { st3 with instapay := st3.instapay ++ [instapayTx] }
      (st4, .ok instapayTx)

/-- `updateInstapayTransactionStatus` from the db layer (reached through
`switch.instapayCallback` and `POST /api/v1/instapay/callback`): look the
record up by reference; if the delivered status is FAILED and the record is
still PENDING, credit the source account with the recorded amount and write a
reversal DEPOSIT ledger row under a freshly generated reference; finally
overwrite the record's status / switch reference / message unconditionally and
return the re-selected record. -/
def updateInstapayTransactionStatus (st : BankState) (referenceNumber : String)
    (status : IStatus) (switchReferenceNumber statusMessage : Option String) :
    BankState × Except String InstapayTx :=
  match lookupInstapay st.instapay referenceNumber with
  | none => (st, .error "Instapay transaction not found")
  | some existingTx =>
    let st1 :=
      if status = .FAILED ∧ existingTx.status = .PENDING then
        match findAccountById st.accounts existingTx.sourceAccountId with
        | none => st
        | some sourceAccount =>
          let newBalance := sourceAccount.balance + existingTx.amount
          let stb := { st with
            accounts := setBalance st.accounts existingTx.sourceAccountId newBalance }
          let (reversalRef, stc) := generateTransactionReference stb
          let entry : LedgerEntry :=
            { referenceNumber := reversalRef
              accountId := existingTx.sourceAccountId
              type := .DEPOSIT
              amount := existingTx.amount
              balanceAfter := newBalance
              relatedAccountId := none
              relatedAccountNumber := none
              description := "Instapay reversal - " ++ referenceNumber ++ " failed: "
                ++ statusMessage.getD "Transaction failed" }
          { stc with ledger := stc.ledger ++ [entry] }
      else st
    let newRecords := updateInstapayRecords st1.instapay referenceNumber status
      switchReferenceNumber statusMessage
    let st2 := { st1 with instapay := newRecords }
    match lookupInstapay newRecords referenceNumber with
    | some updatedTx => (st2, .ok updatedTx)
    | none => (st2, .error "Instapay transaction not found")

/-- `transaction.deposit` in the run where the daily-sequence counter write
inside `generateTransactionReference` raises (store unavailable).  The source
wraps nothing in a database transaction, so the `updateAccountBalance` write
that already committed persists while the error propagates to the caller
before any ledger row is written. -/
def transactionDepositRefGenFail (st : BankState) (accountId : Nat) (amount : Int) :
    BankState × Except TrpcError LedgerEntry :=
  if amount ≤ 0 then
    (st, .error ⟨.VALIDATION_ERROR, "Amount must be positive"⟩)
  else
    match findAccountById st.accounts accountId with
    | none => (st, .error ⟨.NOT_FOUND, "Account not found"⟩)
    | some account =>
      let newBalance := account.balance + amount
      let st1 := { st with accounts := setBalance st.accounts accountId newBalance }
      (st1, .error ⟨.INTERNAL_SERVER_ERROR, "Database not available"⟩)

/-- `transaction.withdraw` in the run where the daily-sequence counter write
fails, analogous to `transactionDepositRefGenFail`. -/
def transactionWithdrawRefGenFail (st : BankState) (accountId : Nat) (amount : Int) :
    BankState × Except TrpcError LedgerEntry :=
  if amount ≤ 0 then
    (st, .error ⟨.VALIDATION_ERROR, "Amount must be positive"⟩)
  else
    match findAccountById st.accounts accountId with
    | none => (st, .error ⟨.NOT_FOUND, "Account not found"⟩)
    | some account =>
      if account.balance < amount then
        (st, .error ⟨.BAD_REQUEST, "Insufficient balance"⟩)
      else
        let newBalance := account.balance - amount
        let st1 := { st with accounts := setBalance st.accounts accountId newBalance }
        (st1, .error ⟨.INTERNAL_SERVER_ERROR, "Database not available"⟩)

/-! ## Sequential reference generation (claim C7) -/

/-- `M` sequential calls of `generateTransactionReference` on one date,
started from counter state `c`, listing the returned reference numbers in
order. -/
def genRefsFrom (d : String) : Option Nat → Nat → List String
  | _, 0 => []
  | c, M + 1 => mkRef d (nextSeq c) :: genRefsFrom d (some (nextSeq c)) M

/-- The `TXN` + 8 digits + 6 digits shape of a reference number (the
`/^TXN\d{14}$/` pattern the repository's own test asserts, with the date and
sequence fields checked separately). -/
def refPatternOK (r : String) : Bool :=
  (r.data.take 3 == "TXN".data)
  && ((r.data.drop 3).take 8).all Char.isDigit
  && ((r.data.drop 3).take 8).length == 8
  && (r.data.drop 11).all Char.isDigit
  && ((r.data.drop 11).length == 6)

/-- The sequence field of a reference number, read back as a number. -/
def seqVal (r : String) : Nat := valOfChars (r.data.drop 11)

/-- Characterization: starting from a present counter row `n`, the `k`-th
generated reference carries sequence `n + k`. -/
theorem genRefsFrom_some (d : String) (M : Nat) : ∀ n,
    genRefsFrom d (some n) M = (List.range M).map (fun i => mkRef d (n + 1 + i)) := by
  induction M with
  | zero => intro n; rfl
  | succ M ih =>
    intro n
    rw [genRefsFrom, List.range_succ_eq_map, List.map_cons, List.map_map]
    simp only [nextSeq]
    rw [ih (n + 1)]
    refine congrArg₂ _ (by simp) ?_
    refine List.map_congr_left ?_
    intro i _
    simp only [Function.comp_apply]
    congr 1
    omega

/-- Characterization: starting with no counter row, the `k`-th generated
reference carries sequence `k` (so the first is sequence `1`). -/
theorem genRefsFrom_none (d : String) (M : Nat) :
    genRefsFrom d none M = (List.range M).map (fun i => mkRef d (i + 1)) := by
  match M with
  | 0 => rfl
  | M + 1 =>
    rw [genRefsFrom, List.range_succ_eq_map, List.map_cons, List.map_map]
    simp only [nextSeq]
    rw [genRefsFrom_some d M 1]
    refine congrArg₂ _ (by simp) ?_
    refine List.map_congr_left ?_
    intro i _
    simp only [Function.comp_apply]
    congr 1
    omega

/-- The data of a reference number splits into the literal, the date and the
padded sequence. -/
theorem mkRef_data (d : String) (k : Nat) :
    (mkRef d k).data = "TXN".data ++ d.data ++ (padSeq k).data := by
  unfold mkRef
  rw [String.data_append, String.data_append]

/-- The sequence field of a generated reference reads back to the sequence
value it was generated from. -/
theorem seqVal_mkRef (d : String) (k : Nat) (hdlen : d.data.length = 8) :
    seqVal (mkRef d k) = k := by
  unfold seqVal
  rw [mkRef_data, List.append_assoc]
  have hlen : ("TXN".data ++ d.data).length = 11 := by
    rw [List.length_append, hdlen]; rfl
  rw [← List.append_assoc, List.drop_left' hlen]
  exact valOfChars_padSeq k

/-- A reference generated with a well-formed date and a sequence value of at
most 999999 matches the `TXN` + 8 digits + 6 digits pattern. -/
theorem refPatternOK_mkRef (d : String) (k : Nat) (hdlen : d.data.length = 8)
    (hddig : ∀ c ∈ d.data, c.isDigit = true) (hk : k ≤ 999999) :
    refPatternOK (mkRef d k) = true := by
  have hTXN : ("TXN".data).length = 3 := rfl
  have hlen11 : ("TXN".data ++ d.data).length = 11 := by
    rw [List.length_append, hdlen]; rfl
  have hdrop11 : (mkRef d k).data.drop 11 = (padSeq k).data := by
    rw [mkRef_data, List.drop_left' hlen11]
  have hdrop3 : (mkRef d k).data.drop 3 = d.data ++ (padSeq k).data := by
    rw [mkRef_data, List.append_assoc, List.drop_left' hTXN]
  have htake3 : (mkRef d k).data.take 3 = "TXN".data := by
    rw [mkRef_data, List.append_assoc, List.take_left' hTXN]
  unfold refPatternOK
  rw [hdrop11, hdrop3, htake3, List.take_left' hdlen]
  simp only [beq_self_eq_true, Bool.true_and, Bool.and_eq_true, List.all_eq_true,
    beq_iff_eq]
  refine ⟨⟨⟨hddig, hdlen⟩, fun c hc => padSeq_isDigit k c hc⟩, padSeq_length_eq_six hk⟩

/-- C7 (amended): generating `M ≤ 999999` reference numbers sequentially on
one date, starting with no counter row, yields the references with sequence
values `1, 2, ..., M` in order; they are pairwise distinct, the first is
`TXN` + date + `000001`, each matches the `TXN` + 8-digit date + 6-digit
zero-padded sequence pattern, and the sequence fields are strictly
increasing.  (The original claim, with no bound on `M`, fails: from the
millionth reference on, the sequence field outgrows six digits — see the
counterexample.) -/
theorem reference_generation_correct (d : String) (M : Nat)
    (hdlen : d.data.length = 8) (hddig : ∀ c ∈ d.data, c.isDigit = true)
    (hM : M ≤ 999999) :
    genRefsFrom d none M = (List.range M).map (fun i => mkRef d (i + 1))
    ∧ (genRefsFrom d none M).Nodup
    ∧ (0 < M → (genRefsFrom d none M).head? = some ("TXN" ++ d ++ "000001"))
    ∧ (∀ r ∈ genRefsFrom d none M, refPatternOK r = true)
    ∧ (genRefsFrom d none M).Pairwise (fun r₁ r₂ => seqVal r₁ < seqVal r₂) := by
  have hchar := genRefsFrom_none d M
  have hpair : (genRefsFrom d none M).Pairwise (fun r₁ r₂ => seqVal r₁ < seqVal r₂) := by
    rw [hchar, List.pairwise_map]
    refine (List.pairwise_lt_range M).imp ?_
    intro i j hij
    rw [seqVal_mkRef d _ hdlen, seqVal_mkRef d _ hdlen]
    omega
  refine ⟨hchar, ?_, ?_, ?_, hpair⟩
  · exact hpair.imp (fun h heq => by rw [heq] at h; exact lt_irrefl _ h)
  · intro hM0
    rw [hchar]
    match M, hM0 with
    | M + 1, _ =>
      rw [List.range_succ_eq_map, List.map_cons, List.head?_cons]
      have hps : padSeq 1 = "000001" := by decide
      show some (mkRef d (0 + 1)) = _
      unfold mkRef
      rw [hps]
  · intro r hr
    rw [hchar] at hr
    rcases List.mem_map.mp hr with ⟨i, hi, rfl⟩
    have := List.mem_range.mp hi
    exact refPatternOK_mkRef d (i + 1) hdlen hddig (by omega)

/-- Witness for `reference_generation_correct` at date `20260115`, `M = 3`. -/
theorem reference_generation_correct_witness :
    (("20260115" : String).data.length = 8
      ∧ (∀ c ∈ ("20260115" : String).data, c.isDigit = true)
      ∧ (3 : Nat) ≤ 999999)
    ∧ (genRefsFrom "20260115" none 3
          = (List.range 3).map (fun i => mkRef "20260115" (i + 1))
        ∧ (genRefsFrom "20260115" none 3).Nodup
        ∧ (0 < 3 → (genRefsFrom "20260115" none 3).head?
            = some ("TXN" ++ "20260115" ++ "000001"))
        ∧ (∀ r ∈ genRefsFrom "20260115" none 3, refPatternOK r = true)
        ∧ (genRefsFrom "20260115" none 3).Pairwise (fun r₁ r₂ => seqVal r₁ < seqVal r₂)) :=
  ⟨⟨by decide, by decide, by decide⟩,
    reference_generation_correct "20260115" 3 (by decide) (by decide) (by decide)⟩

/-- C7 (counterexample to the frozen claim): on the same date, the millionth
sequentially generated reference number no longer matches the
`TXN` + 8-digit date + 6-digit sequence pattern — `padStart(6, '0')` does not
truncate, so the sequence field of reference number 1000000 has seven
digits. -/
theorem reference_pattern_overflow_cex :
    ¬ (∀ r ∈ genRefsFrom "20260115" none 1000000, refPatternOK r = true) := by
  intro hall
  have hmem : mkRef "20260115" 1000000 ∈ genRefsFrom "20260115" none 1000000 := by
    rw [genRefsFrom_none]
    exact List.mem_map.mpr ⟨999999, List.mem_range.mpr (by norm_num), by norm_num⟩
  have hpat := hall _ hmem
  have hlen11 : ("TXN".data ++ ("20260115" : String).data).length = 11 := by decide
  have hdrop : (mkRef "20260115" 1000000).data.drop 11 = (padSeq 1000000).data := by
    rw [mkRef_data, List.drop_left' hlen11]
  have h7 : 7 ≤ (padSeq 1000000).data.length := padSeq_length_of_big (by norm_num)
  unfold refPatternOK at hpat
  rw [hdrop] at hpat
  simp only [Bool.and_eq_true, beq_iff_eq] at hpat
  omega

/-! ## Interbank send and reversal (claims C1, C2, C3, C10) -/

/-- Callback on an unknown reference: error, state untouched. -/
theorem upd_not_found (st : BankState) (ref : String) (s : IStatus) (swr msg : Option String)
    (hl : lookupInstapay st.instapay ref = none) :
    updateInstapayTransactionStatus st ref s swr msg
      = (st, .error "Instapay transaction not found") := by
  unfold updateInstapayTransactionStatus
  rw [hl]

/-- Callback that does not take the reversal branch (status not FAILED, or
record not PENDING): only the record's status fields are overwritten. -/
theorem upd_no_reversal (st : BankState) (ref : String) (s : IStatus) (swr msg : Option String)
    (tx : InstapayTx) (hl : lookupInstapay st.instapay ref = some tx)
    (hguard : ¬(s = .FAILED ∧ tx.status = .PENDING)) :
    updateInstapayTransactionStatus st ref s swr msg
      = ({ st with instapay := updateInstapayRecords st.instapay ref s swr msg },
         .ok (applyStatusUpdate s swr msg tx)) := by
  simp only [updateInstapayTransactionStatus, hl, if_neg hguard, lookupInstapay_update,
    Option.map_some']

/-- FAILED callback on a PENDING record whose source account exists: the
account is credited with the recorded amount, one reversal DEPOSIT ledger row
is appended under a fresh reference, and the record fields are overwritten. -/
theorem upd_reversal (st : BankState) (ref : String) (swr msg : Option String)
    (tx : InstapayTx) (acc : Account)
    (hl : lookupInstapay st.instapay ref = some tx)
    (htp : tx.status = .PENDING)
    (hax : findAccountById st.accounts tx.sourceAccountId = some acc) :
    updateInstapayTransactionStatus st ref .FAILED swr msg
      = ({ accounts := setBalance st.accounts tx.sourceAccountId (acc.balance + tx.amount)
           ledger := st.ledger ++
             [{ referenceNumber := mkRef st.dateStr (nextSeq st.lastSequence)
                accountId := tx.sourceAccountId
                type := .DEPOSIT
                amount := tx.amount
                balanceAfter := acc.balance + tx.amount
                relatedAccountId := none
                relatedAccountNumber := none
                description := "Instapay reversal - " ++ ref ++ " failed: "
                  ++ msg.getD "Transaction failed" }]
           instapay := updateInstapayRecords st.instapay ref .FAILED swr msg
           dateStr := st.dateStr
           lastSequence := some (nextSeq st.lastSequence) },
         .ok (applyStatusUpdate .FAILED swr msg tx)) := by
  simp only [updateInstapayTransactionStatus, hl, htp, Option.map_some', eq_self_iff_true,
    and_self, if_true, hax, generateTransactionReference, lookupInstapay_update]

/-- C1: from a source account with balance `B` (active, with
`0 < A ≤ 50000.00` and `A ≤ B`, stated in centavos), `sendInterbank`
(`createInstapayTransaction`) leaves the balance at `B - A`, appends exactly
one INSTAPAY ledger row with amount `-A` and balanceAfter `B - A`, and creates
a PENDING interbank record; a subsequent FAILED callback on that reference
restores the balance to exactly `B` and appends exactly one additional
DEPOSIT ledger row with amount `A`; a subsequent SUCCESS callback leaves the
balance at `B - A` and appends no ledger row. -/
theorem instapay_send_reversal_correct
    (st : BankState) (aid : Nat) (srcNum bn bc destNum destName : String)
    (A : Int) (acc : Account) (swr msg : Option String)
    (hacc : findAccountById st.accounts aid = some acc)
    (hactive : acc.status = .active)
    (hA0 : 0 < A) (hA5 : A ≤ 5000000) (hAB : A ≤ acc.balance)
    (hfresh : lookupInstapay st.instapay (mkRef st.dateStr (nextSeq st.lastSequence)) = none) :
    ∃ tx : InstapayTx,
      (createInstapayTransaction st ⟨aid, srcNum, bn, bc, destNum, destName, A⟩).2 = .ok tx
      ∧ tx.status = .PENDING
      ∧ tx.referenceNumber = mkRef st.dateStr (nextSeq st.lastSequence)
      ∧ tx.amount = A
      ∧ findAccountById
          (createInstapayTransaction st ⟨aid, srcNum, bn, bc, destNum, destName, A⟩).1.accounts
          aid = some { acc with balance := acc.balance - A }
      ∧ (createInstapayTransaction st ⟨aid, srcNum, bn, bc, destNum, destName, A⟩).1.ledger
          = st.ledger ++
            [{ referenceNumber := mkRef st.dateStr (nextSeq st.lastSequence)
               accountId := aid
               type := .INSTAPAY
               amount := -A
               balanceAfter := acc.balance - A
               relatedAccountId := none
               relatedAccountNumber := some destNum
               description := "Instapay to " ++ destName ++ " at " ++ bn }]
      ∧ (createInstapayTransaction st ⟨aid, srcNum, bn, bc, destNum, destName, A⟩).1.instapay
          = st.instapay ++ [tx]
      ∧ (findAccountById
            (updateInstapayTransactionStatus
              (createInstapayTransaction st ⟨aid, srcNum, bn, bc, destNum, destName, A⟩).1
              (mkRef st.dateStr (nextSeq st.lastSequence)) .FAILED swr msg).1.accounts
            aid = some acc
          ∧ ∃ rev : LedgerEntry,
              (updateInstapayTransactionStatus
                (createInstapayTransaction st ⟨aid, srcNum, bn, bc, destNum, destName, A⟩).1
                (mkRef st.dateStr (nextSeq st.lastSequence)) .FAILED swr msg).1.ledger
                = (createInstapayTransaction st ⟨aid, srcNum, bn, bc, destNum, destName, A⟩).1.ledger
                  ++ [rev]
              ∧ rev.type = .DEPOSIT ∧ rev.amount = A)
      ∧ (findAccountById
            (updateInstapayTransactionStatus
              (createInstapayTransaction st ⟨aid, srcNum, bn, bc, destNum, destName, A⟩).1
              (mkRef st.dateStr (nextSeq st.lastSequence)) .SUCCESS swr msg).1.accounts
            aid = some { acc with balance := acc.balance - A }
          ∧ (updateInstapayTransactionStatus
              (createInstapayTransaction st ⟨aid, srcNum, bn, bc, destNum, destName, A⟩).1
              (mkRef st.dateStr (nextSeq st.lastSequence)) .SUCCESS swr msg).1.ledger
            = (createInstapayTransaction st ⟨aid, srcNum, bn, bc, destNum, destName, A⟩).1.ledger) := by
  have hsend : createInstapayTransaction st ⟨aid, srcNum, bn, bc, destNum, destName, A⟩
      = ({ accounts := setBalance st.accounts aid (acc.balance - A)
           ledger := st.ledger ++
             [{ referenceNumber := mkRef st.dateStr (nextSeq st.lastSequence)
                accountId := aid
                type := .INSTAPAY
                amount := -A
                balanceAfter := acc.balance - A
                relatedAccountId := none
                relatedAccountNumber := some destNum
                description := "Instapay to " ++ destName ++ " at " ++ bn }]
           instapay := st.instapay ++
             [{ referenceNumber := mkRef st.dateStr (nextSeq st.lastSequence)
                sourceAccountId := aid
                sourceAccountNumber := srcNum
                bankName := bn
                bankCode := bc
                accountNumber := destNum
                accountName := destName
                amount := A
                status := .PENDING
                switchReferenceNumber := none
                statusMessage := none }]
           dateStr := st.dateStr
           lastSequence := some (nextSeq st.lastSequence) },
         .ok { referenceNumber := mkRef st.dateStr (nextSeq st.lastSequence)
               sourceAccountId := aid
               sourceAccountNumber := srcNum
               bankName := bn
               bankCode := bc
               accountNumber := destNum
               accountName := destName
               amount := A
               status := .PENDING
               switchReferenceNumber := none
               statusMessage := none }) := by
    unfold createInstapayTransaction generateTransactionReference
    simp only [hacc]
    rw [if_neg (by simp [hactive]), if_neg (by omega), if_neg (by omega), if_neg (by omega)]
  rw [hsend]
  refine ⟨_, rfl, rfl, rfl, rfl, ?_, rfl, rfl, ?_, ?_⟩
  · -- balance after the send
    show findAccountById (setBalance st.accounts aid (acc.balance - A)) aid = _
    rw [findAccountById_setBalance, hacc]
    rfl
  · -- FAILED callback: reversal
    have hfindS : findAccountById (setBalance st.accounts aid (acc.balance - A)) aid
        = some { acc with balance := acc.balance - A } := by
      rw [findAccountById_setBalance, hacc]; rfl
    have hlook : lookupInstapay (st.instapay ++
        [{ referenceNumber := mkRef st.dateStr (nextSeq st.lastSequence)
           sourceAccountId := aid
           sourceAccountNumber := srcNum
           bankName := bn
           bankCode := bc
           accountNumber := destNum
           accountName := destName
           amount := A
           status := .PENDING
           switchReferenceNumber := none
           statusMessage := none }]) (mkRef st.dateStr (nextSeq st.lastSequence))
        = some { referenceNumber := mkRef st.dateStr (nextSeq st.lastSequence)
                 sourceAccountId := aid
                 sourceAccountNumber := srcNum
                 bankName := bn
                 bankCode := bc
                 accountNumber := destNum
                 accountName := destName
                 amount := A
                 status := .PENDING
                 switchReferenceNumber := none
                 statusMessage := none } := by
      unfold lookupInstapay at hfresh ⊢
      rw [find?_append _ _ _ hfresh]
      rw [List.find?_cons_of_pos _ (by simp)]
    rw [upd_reversal _ _ _ _ _ { acc with balance := acc.balance - A } hlook rfl hfindS]
    constructor
    · show findAccountById (setBalance _ aid (acc.balance - A + A)) aid = some acc
      rw [findAccountById_setBalance, hfindS]
      show some { acc with balance := acc.balance - A + A } = some acc
      rw [Int.sub_add_cancel]
    · exact ⟨_, rfl, rfl, rfl⟩
  · -- SUCCESS callback: no balance change, no new ledger row
    have hfindS : findAccountById (setBalance st.accounts aid (acc.balance - A)) aid
        = some { acc with balance := acc.balance - A } := by
      rw [findAccountById_setBalance, hacc]; rfl
    have hlook : lookupInstapay (st.instapay ++
        [{ referenceNumber := mkRef st.dateStr (nextSeq st.lastSequence)
           sourceAccountId := aid
           sourceAccountNumber := srcNum
           bankName := bn
           bankCode := bc
           accountNumber := destNum
           accountName := destName
           amount := A
           status := .PENDING
           switchReferenceNumber := none
           statusMessage := none }]) (mkRef st.dateStr (nextSeq st.lastSequence))
        = some { referenceNumber := mkRef st.dateStr (nextSeq st.lastSequence)
                 sourceAccountId := aid
                 sourceAccountNumber := srcNum
                 bankName := bn
                 bankCode := bc
                 accountNumber := destNum
                 accountName := destName
                 amount := A
                 status := .PENDING
                 switchReferenceNumber := none
                 statusMessage := none } := by
      unfold lookupInstapay at hfresh ⊢
      rw [find?_append _ _ _ hfresh]
      rw [List.find?_cons_of_pos _ (by simp)]
    rw [upd_no_reversal _ _ _ _ _ _ hlook (by simp)]
    exact ⟨hfindS, rfl⟩

/-- Concrete account used by the witnesses: id 1, number `0011234567`,
balance 100.00 (10000 centavos), active. -/
def accW : Account :=
  { id := 1, accountNumber := "0011234567", balance := 10000, status := .active }

/-- Concrete single-account state used by the witnesses, empty ledger, no
instapay records, no counter row for date `20260115`. -/
def stW : BankState :=
  { accounts := [accW], ledger := [], instapay := [], dateStr := "20260115",
    lastSequence := none }

/-- Witness for `instapay_send_reversal_correct`: a 50.00 send out of `stW`. -/
theorem instapay_send_reversal_correct_witness :
    (findAccountById stW.accounts 1 = some accW
      ∧ accW.status = .active
      ∧ (0 : Int) < 5000 ∧ (5000 : Int) ≤ 5000000 ∧ (5000 : Int) ≤ accW.balance
      ∧ lookupInstapay stW.instapay (mkRef stW.dateStr (nextSeq stW.lastSequence)) = none)
    ∧ (∃ tx : InstapayTx,
      (createInstapayTransaction stW ⟨1, "0011234567", "BDO Unibank", "BDO", "9876543210",
          "Juan Dela Cruz", 5000⟩).2 = .ok tx
      ∧ tx.status = .PENDING
      ∧ tx.referenceNumber = mkRef stW.dateStr (nextSeq stW.lastSequence)
      ∧ tx.amount = 5000
      ∧ findAccountById
          (createInstapayTransaction stW ⟨1, "0011234567", "BDO Unibank", "BDO", "9876543210",
            "Juan Dela Cruz", 5000⟩).1.accounts
          1 = some { accW with balance := accW.balance - 5000 }
      ∧ (createInstapayTransaction stW ⟨1, "0011234567", "BDO Unibank", "BDO", "9876543210",
            "Juan Dela Cruz", 5000⟩).1.ledger
          = stW.ledger ++
            [{ referenceNumber := mkRef stW.dateStr (nextSeq stW.lastSequence)
               accountId := 1
               type := .INSTAPAY
               amount := -5000
               balanceAfter := accW.balance - 5000
               relatedAccountId := none
               relatedAccountNumber := some "9876543210"
               description := "Instapay to " ++ "Juan Dela Cruz" ++ " at " ++ "BDO Unibank" }]
      ∧ (createInstapayTransaction stW ⟨1, "0011234567", "BDO Unibank", "BDO", "9876543210",
            "Juan Dela Cruz", 5000⟩).1.instapay
          = stW.instapay ++ [tx]
      ∧ (findAccountById
            (updateInstapayTransactionStatus
              (createInstapayTransaction stW ⟨1, "0011234567", "BDO Unibank", "BDO",
                "9876543210", "Juan Dela Cruz", 5000⟩).1
              (mkRef stW.dateStr (nextSeq stW.lastSequence)) .FAILED none none).1.accounts
            1 = some accW
          ∧ ∃ rev : LedgerEntry,
              (updateInstapayTransactionStatus
                (createInstapayTransaction stW ⟨1, "0011234567", "BDO Unibank", "BDO",
                  "9876543210", "Juan Dela Cruz", 5000⟩).1
                (mkRef stW.dateStr (nextSeq stW.lastSequence)) .FAILED none none).1.ledger
                = (createInstapayTransaction stW ⟨1, "0011234567", "BDO Unibank", "BDO",
                    "9876543210", "Juan Dela Cruz", 5000⟩).1.ledger
                  ++ [rev]
              ∧ rev.type = .DEPOSIT ∧ rev.amount = 5000)
      ∧ (findAccountById
            (updateInstapayTransactionStatus
              (createInstapayTransaction stW ⟨1, "0011234567", "BDO Unibank", "BDO",
                "9876543210", "Juan Dela Cruz", 5000⟩).1
              (mkRef stW.dateStr (nextSeq stW.lastSequence)) .SUCCESS none none).1.accounts
            1 = some { accW with balance := accW.balance - 5000 }
          ∧ (updateInstapayTransactionStatus
              (createInstapayTransaction stW ⟨1, "0011234567", "BDO Unibank", "BDO",
                "9876543210", "Juan Dela Cruz", 5000⟩).1
              (mkRef stW.dateStr (nextSeq stW.lastSequence)) .SUCCESS none none).1.ledger
            = (createInstapayTransaction stW ⟨1, "0011234567", "BDO Unibank", "BDO",
                "9876543210", "Juan Dela Cruz", 5000⟩).1.ledger)) :=
  ⟨⟨rfl, rfl, by decide, by decide, by decide, rfl⟩,
    instapay_send_reversal_correct stW 1 "0011234567" "BDO Unibank" "BDO" "9876543210"
      "Juan Dela Cruz" 5000 accW none none rfl rfl (by decide) (by decide) (by decide) rfl⟩

/-- FAILED callback on a PENDING record whose source account is missing: the
reversal branch is skipped, but the record fields are still overwritten. -/
theorem upd_reversal_no_account (st : BankState) (ref : String) (swr msg : Option String)
    (tx : InstapayTx)
    (hl : lookupInstapay st.instapay ref = some tx)
    (htp : tx.status = .PENDING)
    (hax : findAccountById st.accounts tx.sourceAccountId = none) :
    updateInstapayTransactionStatus st ref .FAILED swr msg
      = ({ st with instapay := updateInstapayRecords st.instapay ref .FAILED swr msg },
         .ok (applyStatusUpdate .FAILED swr msg tx)) := by
  simp only [updateInstapayTransactionStatus, hl, htp, Option.map_some', eq_self_iff_true,
    and_self, if_true, hax, lookupInstapay_update]

/-- Whatever branch a callback takes, the instapay table of the post-state is
the field-overwritten table (provided the record exists). -/
theorem upd_fst_instapay (st : BankState) (ref : String) (s : IStatus)
    (swr msg : Option String) (tx : InstapayTx)
    (hl : lookupInstapay st.instapay ref = some tx) :
    (updateInstapayTransactionStatus st ref s swr msg).1.instapay
      = updateInstapayRecords st.instapay ref s swr msg := by
  by_cases hg : s = .FAILED ∧ tx.status = .PENDING
  · rcases hg with ⟨rfl, htp⟩
    rcases hax : findAccountById st.accounts tx.sourceAccountId with _ | acc
    · rw [upd_reversal_no_account st ref swr msg tx hl htp hax]
    · rw [upd_reversal st ref swr msg tx acc hl htp hax]
  · rw [upd_no_reversal st ref s swr msg tx hl hg]

/-- Overwriting the status fields twice with the same callback data is the
same as overwriting them once. -/
theorem applyStatusUpdate_idem (s : IStatus) (swr msg : Option String) (t : InstapayTx) :
    applyStatusUpdate s swr msg (applyStatusUpdate s swr msg t)
      = applyStatusUpdate s swr msg t := by
  unfold applyStatusUpdate
  cases swr <;> cases msg <;> rfl

/-- The row-wise status overwrite is idempotent. -/
theorem updateInstapayRecords_idem (l : List InstapayTx) (ref : String) (s : IStatus)
    (swr msg : Option String) :
    updateInstapayRecords (updateInstapayRecords l ref s swr msg) ref s swr msg
      = updateInstapayRecords l ref s swr msg := by
  unfold updateInstapayRecords
  rw [List.map_map]
  refine List.map_congr_left ?_
  intro t _
  simp only [Function.comp_apply]
  by_cases ht : (t.referenceNumber == ref) = true
  · rw [if_pos ht, if_pos (by simpa [applyStatusUpdate] using ht),
      applyStatusUpdate_idem]
  · rw [if_neg ht, if_neg ht]

/-- Concrete instapay record in terminal SUCCESS status. -/
def txC2 : InstapayTx :=
  { referenceNumber := "TXN20260115000001", sourceAccountId := 1,
    sourceAccountNumber := "0011234567", bankName := "BDO Unibank", bankCode := "BDO",
    accountNumber := "9876543210", accountName := "Juan Dela Cruz", amount := 5000,
    status := .SUCCESS, switchReferenceNumber := some "SW-1", statusMessage := some "ok" }

/-- Concrete state whose single instapay record is already SUCCESS. -/
def stC2 : BankState :=
  { accounts := [accW], ledger := [], instapay := [txC2], dateStr := "20260115",
    lastSequence := some 1 }

/-- C2 (counterexample to the frozen claim): a record in terminal status
SUCCESS is moved to FAILED by a later FAILED callback —
`updateInstapayTransactionStatus` overwrites the status unconditionally, so
SUCCESS and FAILED are not terminal. -/
theorem terminal_status_not_immutable_cex :
    txC2.status = .SUCCESS
    ∧ (∃ u : InstapayTx,
        lookupInstapay (updateInstapayTransactionStatus stC2 "TXN20260115000001" .FAILED none
          (some "late failure")).1.instapay "TXN20260115000001" = some u
        ∧ u.status = .FAILED) := by
  refine ⟨rfl, ⟨applyStatusUpdate .FAILED none (some "late failure") txC2, ?_, rfl⟩⟩
  decide

/-- C2 (amended): the interbank record's status field is not immutable after
reaching SUCCESS or FAILED: every callback on an existing record overwrites
the status with the delivered status (and the switch reference / message,
JavaScript-`||` style), whatever the prior status was.  Only the compensating
balance credit is restricted to a FAILED callback on a still-PENDING
record. -/
theorem callback_overwrites_status (st : BankState) (ref : String) (s : IStatus)
    (swr msg : Option String) (tx : InstapayTx)
    (hl : lookupInstapay st.instapay ref = some tx) :
    ∃ u : InstapayTx,
      (updateInstapayTransactionStatus st ref s swr msg).2 = .ok u
      ∧ u.status = s
      ∧ lookupInstapay (updateInstapayTransactionStatus st ref s swr msg).1.instapay ref
          = some u := by
  refine ⟨applyStatusUpdate s swr msg tx, ?_, rfl, ?_⟩
  · by_cases hg : s = .FAILED ∧ tx.status = .PENDING
    · rcases hg with ⟨rfl, htp⟩
      rcases hax : findAccountById st.accounts tx.sourceAccountId with _ | acc
      · rw [upd_reversal_no_account st ref swr msg tx hl htp hax]
      · rw [upd_reversal st ref swr msg tx acc hl htp hax]
    · rw [upd_no_reversal st ref s swr msg tx hl hg]
  · rw [upd_fst_instapay st ref s swr msg tx hl, lookupInstapay_update, hl]
    rfl

/-- Witness for `callback_overwrites_status`: the SUCCESS record of `stC2`
is overwritten to FAILED. -/
theorem callback_overwrites_status_witness :
    lookupInstapay stC2.instapay "TXN20260115000001" = some txC2
    ∧ (∃ u : InstapayTx,
      (updateInstapayTransactionStatus stC2 "TXN20260115000001" .FAILED none none).2 = .ok u
      ∧ u.status = .FAILED
      ∧ lookupInstapay (updateInstapayTransactionStatus stC2 "TXN20260115000001" .FAILED
          none none).1.instapay "TXN20260115000001" = some u) :=
  ⟨rfl, callback_overwrites_status stC2 "TXN20260115000001" .FAILED none none txC2 rfl⟩

/-- C3: delivering the same terminal callback (SUCCESS or FAILED) twice for
one reference leaves the state of the second delivery exactly equal to the
state after the first: no balance is mutated a second time, no ledger row is
appended, the counter is not bumped and the record is unchanged — in
particular a repeated FAILED callback does not credit the reversal twice. -/
theorem terminal_callback_idempotent (st : BankState) (ref : String) (s : IStatus)
    (swr msg : Option String) (hs : s = .SUCCESS ∨ s = .FAILED) :
    (updateInstapayTransactionStatus
        (updateInstapayTransactionStatus st ref s swr msg).1 ref s swr msg).1
      = (updateInstapayTransactionStatus st ref s swr msg).1 := by
  rcases hlook : lookupInstapay st.instapay ref with _ | tx
  · simp only [upd_not_found st ref s swr msg hlook]
  · have hinst1 : (updateInstapayTransactionStatus st ref s swr msg).1.instapay
        = updateInstapayRecords st.instapay ref s swr msg :=
      upd_fst_instapay st ref s swr msg tx hlook
    have hlook1 : lookupInstapay
        (updateInstapayTransactionStatus st ref s swr msg).1.instapay ref
        = some (applyStatusUpdate s swr msg tx) := by
      rw [hinst1, lookupInstapay_update, hlook]
      rfl
    have hguard : ¬(s = .FAILED ∧ (applyStatusUpdate s swr msg tx).status = .PENDING) := by
      rcases hs with rfl | rfl <;> simp [applyStatusUpdate]
    rw [upd_no_reversal _ ref s swr msg _ hlook1 hguard]
    show { (updateInstapayTransactionStatus st ref s swr msg).1 with
      instapay := updateInstapayRecords
        (updateInstapayTransactionStatus st ref s swr msg).1.instapay ref s swr msg } = _
    rw [hinst1, updateInstapayRecords_idem, ← hinst1]

/-- Witness for `terminal_callback_idempotent`: a repeated FAILED callback on
the record of `stC2`. -/
theorem terminal_callback_idempotent_witness :
    ((IStatus.FAILED = IStatus.SUCCESS ∨ IStatus.FAILED = IStatus.FAILED)
    ∧ (updateInstapayTransactionStatus
        (updateInstapayTransactionStatus stC2 "TXN20260115000001" .FAILED none none).1
        "TXN20260115000001" .FAILED none none).1
      = (updateInstapayTransactionStatus stC2 "TXN20260115000001" .FAILED none none).1) :=
  ⟨Or.inr rfl,
    terminal_callback_idempotent stC2 "TXN20260115000001" .FAILED none none (Or.inr rfl)⟩

/-- Erase the three callback-mutable fields of an instapay record (used to
state that callbacks touch nothing else). -/
def eraseStatusFields (t : InstapayTx) : InstapayTx :=
  { t with status := .PENDING, switchReferenceNumber := none, statusMessage := none }

/-- C10: a callback delivering SUCCESS or PENDING changes no account balance,
appends no ledger row and does not bump the reference counter; on the
instapay table it only overwrites the status / switch reference / message
fields of the matching record.  Moreover, for any delivered status at all,
if the record's prior status is not PENDING then no account balance changes
and no ledger row is appended: the balance-affecting branch runs solely for
a FAILED callback on a prior-PENDING record. -/
theorem callback_success_pending_frame (st : BankState) (ref : String) (s : IStatus)
    (swr msg : Option String) (tx : InstapayTx)
    (hl : lookupInstapay st.instapay ref = some tx)
    (hs : s = .SUCCESS ∨ s = .PENDING) :
    (updateInstapayTransactionStatus st ref s swr msg).1.accounts = st.accounts
    ∧ (updateInstapayTransactionStatus st ref s swr msg).1.ledger = st.ledger
    ∧ (updateInstapayTransactionStatus st ref s swr msg).1.lastSequence = st.lastSequence
    ∧ (updateInstapayTransactionStatus st ref s swr msg).1.dateStr = st.dateStr
    ∧ (updateInstapayTransactionStatus st ref s swr msg).1.instapay.map eraseStatusFields
        = st.instapay.map eraseStatusFields
    ∧ (∀ s' : IStatus, tx.status ≠ .PENDING →
        (updateInstapayTransactionStatus st ref s' swr msg).1.accounts = st.accounts
        ∧ (updateInstapayTransactionStatus st ref s' swr msg).1.ledger = st.ledger) := by
  have hguard : ¬(s = .FAILED ∧ tx.status = .PENDING) := by
    rcases hs with rfl | rfl <;> simp
  have herase : (updateInstapayRecords st.instapay ref s swr msg).map eraseStatusFields
      = st.instapay.map eraseStatusFields := by
    unfold updateInstapayRecords
    rw [List.map_map]
    refine List.map_congr_left ?_
    intro t _
    simp only [Function.comp_apply]
    by_cases ht : (t.referenceNumber == ref) = true
    · rw [if_pos ht]; rfl
    · rw [if_neg ht]
  rw [upd_no_reversal st ref s swr msg tx hl hguard]
  refine ⟨rfl, rfl, rfl, rfl, herase, ?_⟩
  intro s' htp
  have hguard' : ¬(s' = .FAILED ∧ tx.status = .PENDING) := fun h => htp h.2
  rw [upd_no_reversal st ref s' swr msg tx hl hguard']
  exact ⟨rfl, rfl⟩

/-- Witness for `callback_success_pending_frame`: a SUCCESS callback on the
record of `stC2`. -/
theorem callback_success_pending_frame_witness :
    (lookupInstapay stC2.instapay "TXN20260115000001" = some txC2
      ∧ (IStatus.SUCCESS = IStatus.SUCCESS ∨ IStatus.SUCCESS = IStatus.PENDING))
    ∧ ((updateInstapayTransactionStatus stC2 "TXN20260115000001" .SUCCESS none none).1.accounts
        = stC2.accounts
      ∧ (updateInstapayTransactionStatus stC2 "TXN20260115000001" .SUCCESS none
          none).1.ledger = stC2.ledger
      ∧ (updateInstapayTransactionStatus stC2 "TXN20260115000001" .SUCCESS none
          none).1.lastSequence = stC2.lastSequence
      ∧ (updateInstapayTransactionStatus stC2 "TXN20260115000001" .SUCCESS none
          none).1.dateStr = stC2.dateStr
      ∧ (updateInstapayTransactionStatus stC2 "TXN20260115000001" .SUCCESS none
          none).1.instapay.map eraseStatusFields = stC2.instapay.map eraseStatusFields
      ∧ (∀ s' : IStatus, txC2.status ≠ .PENDING →
          (updateInstapayTransactionStatus stC2 "TXN20260115000001" s' none none).1.accounts
            = stC2.accounts
          ∧ (updateInstapayTransactionStatus stC2 "TXN20260115000001" s' none
              none).1.ledger = stC2.ledger)) :=
  ⟨⟨rfl, Or.inl rfl⟩,
    callback_success_pending_frame stC2 "TXN20260115000001" .SUCCESS none none txC2 rfl
      (Or.inl rfl)⟩

/-! ## Withdrawals (claims C4, C5) -/

/-- C4: withdrawing more than the balance from an existing, not-closed
account fails and changes nothing: the REST endpoint reports
INSUFFICIENT_BALANCE with the available balance in the payload, the tRPC
router throws BAD_REQUEST, and in both cases the state (balances and ledger)
is returned untouched. -/
theorem withdraw_insufficient_rejected (st : BankState) (num : String) (aid : Nat)
    (A : Int) (acc acc2 : Account) (descR descT : Option String)
    (hr : findAccountByNumber st.accounts num = some acc)
    (hact : acc.status ≠ .closed)
    (h0 : 0 < A)
    (hgt : acc.balance < A)
    (ht : findAccountById st.accounts aid = some acc2)
    (hgt2 : acc2.balance < A) :
    restWithdrawal st num A descR = (st, .error (.insufficientBalance acc.balance))
    ∧ transactionWithdraw st aid A descT
        = (st, .error ⟨.BAD_REQUEST, "Insufficient balance"⟩) := by
  constructor
  · simp only [restWithdrawal, if_neg (by omega : ¬ A ≤ 0), hr, if_neg hact, if_pos hgt]
  · simp only [transactionWithdraw, if_neg (by omega : ¬ A ≤ 0), ht, if_pos hgt2]

/-- Witness for `withdraw_insufficient_rejected`: a 200.00 withdrawal against
the 100.00 balance of `stW`. -/
theorem withdraw_insufficient_rejected_witness :
    (findAccountByNumber stW.accounts "0011234567" = some accW
      ∧ accW.status ≠ .closed
      ∧ (0 : Int) < 20000
      ∧ accW.balance < 20000
      ∧ findAccountById stW.accounts 1 = some accW
      ∧ accW.balance < 20000)
    ∧ (restWithdrawal stW "0011234567" 20000 none
        = (stW, .error (.insufficientBalance accW.balance))
      ∧ transactionWithdraw stW 1 20000 none
          = (stW, .error ⟨.BAD_REQUEST, "Insufficient balance"⟩)) :=
  ⟨⟨rfl, by decide, by decide, by decide, rfl, by decide⟩,
    withdraw_insufficient_rejected stW "0011234567" 1 20000 accW accW none none rfl
      (by decide) (by decide) (by decide) rfl (by decide)⟩

/-- Concrete closed account with a 100.00 balance. -/
def accC5 : Account :=
  { id := 1, accountNumber := "0011234567", balance := 10000, status := .closed }

/-- Concrete state holding only the closed account `accC5`. -/
def stC5 : BankState :=
  { accounts := [accC5], ledger := [], instapay := [], dateStr := "20260115",
    lastSequence := none }

/-- C5 (counterexample to the frozen claim): the tRPC `transaction.withdraw`
performs no closed-account check — a 40.00 withdrawal from the closed account
`accC5` succeeds, reduces the balance and appends a ledger row, instead of
failing with the closed-account error. -/
theorem trpc_withdraw_closed_account_cex :
    accC5.status = .closed
    ∧ (transactionWithdraw stC5 1 4000 none).2
        = .ok { referenceNumber := "TXN20260115000001", accountId := 1,
                type := .WITHDRAWAL, amount := -4000, balanceAfter := 6000,
                relatedAccountId := none, relatedAccountNumber := none,
                description := "Manual Withdrawal" }
    ∧ findAccountById (transactionWithdraw stC5 1 4000 none).1.accounts 1
        = some { id := 1, accountNumber := "0011234567", balance := 6000, status := .closed }
    ∧ (transactionWithdraw stC5 1 4000 none).1.ledger.length = stC5.ledger.length + 1 := by
  decide

/-- C5 (amended): the two withdrawal entry points disagree on closed
accounts.  The REST endpoint rejects a withdrawal from a closed account with
ACCOUNT_CLOSED and no state change; the tRPC `transaction.withdraw` performs
no status check and, when the balance suffices, completes the withdrawal on
the closed account (balance reduced, one ledger row appended). -/
theorem withdraw_closed_account_policy (st : BankState) (num : String) (aid : Nat)
    (A : Int) (acc acc2 : Account) (descR descT : Option String)
    (hr : findAccountByNumber st.accounts num = some acc)
    (hclosed : acc.status = .closed)
    (h0 : 0 < A)
    (ht : findAccountById st.accounts aid = some acc2)
    (_hc2 : acc2.status = .closed)
    (hle : ¬(acc2.balance < A)) :
    restWithdrawal st num A descR = (st, .error .accountClosed)
    ∧ ∃ tx : LedgerEntry, (transactionWithdraw st aid A descT).2 = .ok tx
        ∧ findAccountById (transactionWithdraw st aid A descT).1.accounts aid
            = some { acc2 with balance := acc2.balance - A }
        ∧ (transactionWithdraw st aid A descT).1.ledger = st.ledger ++ [tx] := by
  constructor
  · simp only [restWithdrawal, if_neg (by omega : ¬ A ≤ 0), hr, if_pos hclosed]
  · simp only [transactionWithdraw, if_neg (by omega : ¬ A ≤ 0), ht, if_neg hle,
      createTransaction, generateTransactionReference]
    refine ⟨_, rfl, ?_, rfl⟩
    show findAccountById (setBalance st.accounts aid (acc2.balance - A)) aid = _
    rw [findAccountById_setBalance, ht]
    rfl

/-- Witness for `withdraw_closed_account_policy` on the closed account of
`stC5`. -/
theorem withdraw_closed_account_policy_witness :
    (findAccountByNumber stC5.accounts "0011234567" = some accC5
      ∧ accC5.status = .closed
      ∧ (0 : Int) < 4000
      ∧ findAccountById stC5.accounts 1 = some accC5
      ∧ ¬(accC5.balance < 4000))
    ∧ (restWithdrawal stC5 "0011234567" 4000 none = (stC5, .error .accountClosed)
      ∧ ∃ tx : LedgerEntry, (transactionWithdraw stC5 1 4000 none).2 = .ok tx
          ∧ findAccountById (transactionWithdraw stC5 1 4000 none).1.accounts 1
              = some { accC5 with balance := accC5.balance - 4000 }
          ∧ (transactionWithdraw stC5 1 4000 none).1.ledger = stC5.ledger ++ [tx]) :=
  ⟨⟨rfl, rfl, by decide, rfl, by decide⟩,
    withdraw_closed_account_policy stC5 "0011234567" 1 4000 accC5 accC5 none none rfl rfl
      (by decide) rfl rfl (by decide)⟩

/-! ## Intrabank transfer (claim C6) -/

/-- C6: a successful intrabank transfer between two distinct existing
accounts appends exactly two ledger rows in the one operation: a source row
of type INTERNAL_TRANSFER with amount `-A`, relatedAccountId/Number pointing
at the destination, and a destination row with amount `+A` pointing back at
the source; the two rows carry distinct (consecutive, per-entry) reference
numbers; the source balance decreases by `A` and the destination balance
increases by `A`; the source-side row is the returned result. -/
theorem internal_transfer_double_entry (st : BankState) (fid : Nat) (tnum : String)
    (A : Int) (fa ta : Account) (desc : Option String)
    (hf : findAccountById st.accounts fid = some fa)
    (ht : findAccountByNumber st.accounts tnum = some ta)
    (hne : fa.id ≠ ta.id)
    (hlen : tnum.length = 10)
    (h0 : 0 < A)
    (hbal : ¬(fa.balance < A)) :
    (internalTransfer st fid tnum A desc).1.ledger
      = st.ledger ++
        [{ referenceNumber := mkRef st.dateStr (nextSeq st.lastSequence)
           accountId := fid
           type := .INTERNAL_TRANSFER
           amount := -A
           balanceAfter := fa.balance - A
           relatedAccountId := some ta.id
           relatedAccountNumber := some ta.accountNumber
           description := desc.getD ("Transfer to " ++ ta.accountNumber) },
         { referenceNumber := mkRef st.dateStr (nextSeq st.lastSequence + 1)
           accountId := ta.id
           type := .INTERNAL_TRANSFER
           amount := A
           balanceAfter := ta.balance + A
           relatedAccountId := some fid
           relatedAccountNumber := some fa.accountNumber
           description := desc.getD ("Transfer from " ++ fa.accountNumber) }]
    ∧ mkRef st.dateStr (nextSeq st.lastSequence)
        ≠ mkRef st.dateStr (nextSeq st.lastSequence + 1)
    ∧ (internalTransfer st fid tnum A desc).2
        = .ok { referenceNumber := mkRef st.dateStr (nextSeq st.lastSequence)
                accountId := fid
                type := .INTERNAL_TRANSFER
                amount := -A
                balanceAfter := fa.balance - A
                relatedAccountId := some ta.id
                relatedAccountNumber := some ta.accountNumber
                description := desc.getD ("Transfer to " ++ ta.accountNumber) }
    ∧ findAccountById (internalTransfer st fid tnum A desc).1.accounts fid
        = some { fa with balance := fa.balance - A }
    ∧ findAccountByNumber (internalTransfer st fid tnum A desc).1.accounts tnum
        = some { ta with balance := ta.balance + A } := by
  have hfid : fa.id = fid := by simpa using List.find?_some hf
  have htnum : ta.accountNumber = tnum := by simpa using List.find?_some ht
  have hrun : internalTransfer st fid tnum A desc
      = ({ accounts := setBalance (setBalance st.accounts fa.id (fa.balance - A)) ta.id
             (ta.balance + A)
           ledger := (st.ledger ++
             [{ referenceNumber := mkRef st.dateStr (nextSeq st.lastSequence)
                accountId := fa.id
                type := .INTERNAL_TRANSFER
                amount := -A
                balanceAfter := fa.balance - A
                relatedAccountId := some ta.id
                relatedAccountNumber := some ta.accountNumber
                description := desc.getD ("Transfer to " ++ ta.accountNumber) }]) ++
             [{ referenceNumber := mkRef st.dateStr (nextSeq st.lastSequence + 1)
                accountId := ta.id
                type := .INTERNAL_TRANSFER
                amount := A
                balanceAfter := ta.balance + A
                relatedAccountId := some fa.id
                relatedAccountNumber := some fa.accountNumber
                description := desc.getD ("Transfer from " ++ fa.accountNumber) }]
           instapay := st.instapay
           dateStr := st.dateStr
           lastSequence := some (nextSeq st.lastSequence + 1) },
         .ok { referenceNumber := mkRef st.dateStr (nextSeq st.lastSequence)
               accountId := fa.id
               type := .INTERNAL_TRANSFER
               amount := -A
               balanceAfter := fa.balance - A
               relatedAccountId := some ta.id
               relatedAccountNumber := some ta.accountNumber
               description := desc.getD ("Transfer to " ++ ta.accountNumber) }) := by
    simp only [internalTransfer, if_neg (by simp [hlen] : ¬ tnum.length ≠ 10),
      if_neg (by omega : ¬ A ≤ 0), hf, ht, if_neg hne, if_neg hbal,
      createTransaction, generateTransactionReference, nextSeq]
  rw [hrun, hfid]
  refine ⟨by rw [List.append_assoc]; rfl, ?_, rfl, ?_, ?_⟩
  · intro h
    have := mkRef_injective st.dateStr h
    omega
  · rw [findAccountById_setBalance_ne _ _ _ _ (by rw [hfid] at hne; exact hne),
      findAccountById_setBalance]
    simp only [hf, Option.map_some', hfid]
  · rw [findAccountByNumber_setBalance, findAccountByNumber_setBalance, ht]
    simp only [Option.map_some']
    have hta_ne : ¬((ta.id == fid) = true) := by
      simp only [beq_iff_eq]
      intro h
      exact hne (by rw [hfid, h])
    rw [if_neg hta_ne, if_pos (by simp)]

/-- Second concrete account for the transfer witness. -/
def accB : Account :=
  { id := 2, accountNumber := "0027654321", balance := 5000, status := .active }

/-- Concrete two-account state for the transfer witness. -/
def stC6 : BankState :=
  { accounts := [accW, accB], ledger := [], instapay := [], dateStr := "20260115",
    lastSequence := none }

/-- Witness for `internal_transfer_double_entry`: a 30.00 transfer between
two concrete accounts. -/
theorem internal_transfer_double_entry_witness :
    (findAccountById stC6.accounts 1 = some accW
      ∧ findAccountByNumber stC6.accounts "0027654321" = some accB
      ∧ accW.id ≠ accB.id
      ∧ ("0027654321" : String).length = 10
      ∧ (0 : Int) < 3000
      ∧ ¬(accW.balance < 3000))
    ∧ ((internalTransfer stC6 1 "0027654321" 3000 none).1.ledger
        = stC6.ledger ++
          [{ referenceNumber := mkRef stC6.dateStr (nextSeq stC6.lastSequence)
             accountId := 1
             type := .INTERNAL_TRANSFER
             amount := -3000
             balanceAfter := accW.balance - 3000
             relatedAccountId := some accB.id
             relatedAccountNumber := some accB.accountNumber
             description := Option.getD none ("Transfer to " ++ accB.accountNumber) },
           { referenceNumber := mkRef stC6.dateStr (nextSeq stC6.lastSequence + 1)
             accountId := accB.id
             type := .INTERNAL_TRANSFER
             amount := 3000
             balanceAfter := accB.balance + 3000
             relatedAccountId := some 1
             relatedAccountNumber := some accW.accountNumber
             description := Option.getD none ("Transfer from " ++ accW.accountNumber) }]
      ∧ mkRef stC6.dateStr (nextSeq stC6.lastSequence)
          ≠ mkRef stC6.dateStr (nextSeq stC6.lastSequence + 1)
      ∧ (internalTransfer stC6 1 "0027654321" 3000 none).2
          = .ok { referenceNumber := mkRef stC6.dateStr (nextSeq stC6.lastSequence)
                  accountId := 1
                  type := .INTERNAL_TRANSFER
                  amount := -3000
                  balanceAfter := accW.balance - 3000
                  relatedAccountId := some accB.id
                  relatedAccountNumber := some accB.accountNumber
                  description := Option.getD none ("Transfer to " ++ accB.accountNumber) }
      ∧ findAccountById (internalTransfer stC6 1 "0027654321" 3000 none).1.accounts 1
          = some { accW with balance := accW.balance - 3000 }
      ∧ findAccountByNumber (internalTransfer stC6 1 "0027654321" 3000 none).1.accounts
          "0027654321" = some { accB with balance := accB.balance + 3000 }) :=
  ⟨⟨rfl, rfl, by decide, by decide, by decide, by decide⟩,
    internal_transfer_double_entry stC6 1 "0027654321" 3000 accW accB none rfl rfl
      (by decide) (by decide) (by decide) (by decide)⟩

/-! ## Reference-counter failure during a posting (claim C8) -/

/-- C8: the claim (and the spec) require that a failed daily-sequence counter
update aborts the whole posting with no balance mutated.  The code violates
this: `transaction.deposit` / `transaction.withdraw` commit the
`updateAccountBalance` write before `createTransaction` calls
`generateTransactionReference`, with no enclosing database transaction — so
when the counter update throws, the caller receives an error while the
balance mutation has already taken effect (and no ledger row exists).  On the
concrete state `stW` (balance 100.00): a 100.00 deposit fails yet leaves the
balance at 200.00, and a 40.00 withdrawal fails yet leaves it at 60.00, both
with an empty ledger. -/
theorem deposit_withdraw_refgen_failure_mutates_balance :
    ((transactionDepositRefGenFail stW 1 10000).2
        = .error ⟨.INTERNAL_SERVER_ERROR, "Database not available"⟩
      ∧ findAccountById (transactionDepositRefGenFail stW 1 10000).1.accounts 1
          = some { accW with balance := 20000 }
      ∧ (transactionDepositRefGenFail stW 1 10000).1.ledger = [])
    ∧ ((transactionWithdrawRefGenFail stW 1 4000).2
        = .error ⟨.INTERNAL_SERVER_ERROR, "Database not available"⟩
      ∧ findAccountById (transactionWithdrawRefGenFail stW 1 4000).1.accounts 1
          = some { accW with balance := 6000 }
      ∧ (transactionWithdrawRefGenFail stW 1 4000).1.ledger = []) := by
  decide

end SecBank
